import Mathlib

/-!
# Verification of the ssh-mcp-server session and policy core

Shallow embedding of the session registry, policy engine, command-execution
stream handling, local-path validation and status collector of the
`ssh-mcp-server` repository, together with theorems settling the behavioural
claims about them.

Conventions of the embedding:
* JavaScript `Map` objects become association lists (`List (String × α)`)
  with `Map.set` replacing an existing binding in place.
* A settled promise is `Except`/`Option`: `none` models a rejected promise
  fed into a `.catch` handler, `some s` a fulfilled one.
* JavaScript numbers that can be `NaN` are modelled as `Option Int`
  (`none` = `NaN`); machine floats only occur in the cosmetic
  `toFixed(1)` formatting of utilization percentages, which is modelled by
  exact decimal rounding on the plain-decimal strings the diagnostic
  commands produce.
-/

namespace SSHMCP

/-- Structure `SSHConfig` from `src/models/types.ts`: one connection descriptor. -/
structure SSHConfig where
  host : String
  port : Nat
  username : String
  password : Option String := none
  privateKey : Option String := none
  passphrase : Option String := none
  commandWhitelist : Option (List String) := none
  commandBlacklist : Option (List String) := none
  socksProxy : Option String := none
deriving DecidableEq

/-- Result record of `validateCommand` (ssh-connection-manager). -/
structure ValidationResult where
  isAllowed : Bool
  reason : Option String := none
deriving DecidableEq

/-- JavaScript truthiness of `list && list.length > 0` for an optional
pattern list: `undefined` and the empty array are both falsy. -/
def listConfigured : Option (List String) → Bool
  | some l => decide (l.length > 0)
  | none => false

/-- Method `validateCommand` of the connection manager, parameterised by the
regular-expression membership test `test pattern command` standing for
JavaScript `new RegExp(pattern).test(command)` (the regex engine is an
external library; the policy logic under verification is everything else).
Whitelist is checked first, then blacklist; both must pass. -/
def validateCommand (test : String → String → Bool) (config : SSHConfig)
    (command : String) : ValidationResult :=
  if listConfigured config.commandWhitelist &&
      !((config.commandWhitelist.getD []).any fun pattern => test pattern command) then
    { isAllowed := false, reason := some "Command not in whitelist, execution forbidden" }
  else if listConfigured config.commandBlacklist &&
      ((config.commandBlacklist.getD []).any fun pattern => test pattern command) then
    { isAllowed := false, reason := some "Command matches blacklist, execution forbidden" }
  else
    { isAllowed := true }

/-- The effective timeout computed by `executeCommand`:
`const timeout = options.timeout || 30000` — `0` is falsy in JavaScript,
so both `0` and an absent option yield the 30 000 ms default. -/
def executeCommandTimeout (timeoutOption : Option Nat) : Nat :=
  match timeoutOption with
  | some t => if t = 0 then 30000 else t
  | none => 30000

/-- Events observed on the `exec` channel of a running command, in arrival
order: stdout data, stderr data, the `close` event carrying the exit code,
or a stream `error` event. -/
inductive StreamEvent where
  | out (chunk : String)
  | errOut (chunk : String)
  | close (code : Int)
  | fail (msg : String)
deriving DecidableEq

/-- How the promise returned by `executeCommand` settles (or fails to). -/
inductive ExecOutcome where
  | resolved (text : String)
  | rejected (msg : String)
  | pending (stdoutAcc : String) (stderrAcc : String)
deriving DecidableEq

/-- The stream-event handlers installed by `executeCommand`:
`data` appends to the stdout buffer, `stderr data` appends to the stderr
buffer, `close` resolves with the stdout buffer only (the exit code is
ignored), `error` rejects. The first `close` or `error` settles the
promise. -/
def execCommandRun : List StreamEvent → String → String → ExecOutcome
  | [], d, e => ExecOutcome.pending d e
  | StreamEvent.out c :: rest, d, e => execCommandRun rest (d ++ c) e
  | StreamEvent.errOut c :: rest, d, e => execCommandRun rest d (e ++ c)
  | StreamEvent.close _ :: _, d, _ => ExecOutcome.resolved d
  | StreamEvent.fail m :: _, _, _ => ExecOutcome.rejected ("Stream error: " ++ m)

/-- Outcome of `executeCommand` on a given event trace, for a command that
already passed policy validation and connection establishment. -/
def executeCommandResult (events : List StreamEvent) : ExecOutcome :=
  execCommandRun events "" ""

/-- Concatenation of the stdout chunks delivered before the promise
settles. -/
def stdoutUpToSettle : List StreamEvent → String
  | [] => ""
  | StreamEvent.out c :: rest => c ++ stdoutUpToSettle rest
  | StreamEvent.errOut _ :: rest => stdoutUpToSettle rest
  | StreamEvent.close _ :: _ => ""
  | StreamEvent.fail _ :: _ => ""

/-- Concatenation of the stderr chunks delivered before the promise
settles. -/
def stderrUpToSettle : List StreamEvent → String
  | [] => ""
  | StreamEvent.out _ :: rest => stderrUpToSettle rest
  | StreamEvent.errOut c :: rest => c ++ stderrUpToSettle rest
  | StreamEvent.close _ :: _ => ""
  | StreamEvent.fail _ :: _ => ""

/-- The exit code of the `close` event that settles the trace, when the
trace is settled by a `close` (not by a stream error). -/
def closesWith : List StreamEvent → Option Int
  | [] => none
  | StreamEvent.out _ :: rest => closesWith rest
  | StreamEvent.errOut _ :: rest => closesWith rest
  | StreamEvent.close c :: _ => some c
  | StreamEvent.fail _ :: _ => none

/-- Character-list version of `String.startsWith` (JavaScript
`String.prototype.startsWith`), written so that it evaluates by kernel
reduction. -/
def charsStartWith : List Char → List Char → Bool
  | _, [] => true
  | [], _ :: _ => false
  | a :: as, b :: bs => a == b && charsStartWith as bs

/-- JavaScript `s.startsWith(pre)`. -/
def strStartsWith (s pre : String) : Bool :=
  charsStartWith s.data pre.data

/-- Split a character list at every `/`. -/
def splitOnSlash : List Char → List (List Char)
  | [] => [[]]
  | c :: rest =>
    match splitOnSlash rest with
    | [] => [[]]
    | g :: gs => if c = '/' then [] :: g :: gs else (c :: g) :: gs

/-- The `/`-separated segments of a path string. -/
def pathSegments (s : String) : List String :=
  (splitOnSlash s.data).map fun cs => ⟨cs⟩

/-- Join path segments with `/`. -/
def joinSegments : List String → String
  | [] => ""
  | [s] => s
  | s :: rest => s ++ "/" ++ joinSegments rest

/-- One step of lexical path normalization as performed by the Node function
`path.resolve`: `.` and empty segments are dropped, `..` removes the
previously accumulated segment (and is dropped at the root). -/
def stepSeg (acc : List String) (seg : String) : List String :=
  if seg = "." || seg = "" then acc
  else if seg = ".." then acc.dropLast
  else acc ++ [seg]

/-- Node `path.resolve(p)` against working directory `cwd` (assumed absolute):
an absolute `p` is normalized on its own, a relative `p` is joined onto
`cwd` first. Purely lexical — symlinks are not consulted. -/
def pathResolve (cwd p : String) : String :=
  let segs :=
    if strStartsWith p "/" then pathSegments p
    else pathSegments cwd ++ pathSegments p
  "/" ++ joinSegments (segs.foldl stepSeg [])

/-- Method `validateLocalPath` of the connection manager: resolve the local
path, then accept it iff the resolved string starts with the working
directory (`resolvedPath.startsWith(workingDir)`); otherwise throw the
path-traversal error. -/
def validateLocalPath (workingDir localPath : String) : Except String String :=
  let resolvedPath := pathResolve workingDir localPath
  if strStartsWith resolvedPath workingDir then Except.ok resolvedPath
  else Except.error
    "Path traversal detected. Local path must be within the working directory."

/-- Spec-side notion (from the words of the specification) of a resolved path
lying inside the working-directory tree: it is the working directory
itself or a proper descendant of it. -/
def insideWorkingTree (workingDir p : String) : Bool :=
  p = workingDir || strStartsWith p (workingDir ++ "/")

/-- First phase of `upload`/`download`: the local-path gate runs before
`ensureConnected`, so a validation error rejects the call before any
connect attempt; otherwise the call proceeds to connect and transfer. -/
inductive TransferGate where
  | rejectedBeforeConnect (msg : String)
  | connectThenTransfer (validatedPath : String)
deriving DecidableEq

/-- The local-path gate shared by `upload` and `download`. -/
def transferLocalGate (workingDir localPath : String) : TransferGate :=
  match validateLocalPath workingDir localPath with
  | Except.error m => TransferGate.rejectedBeforeConnect m
  | Except.ok p => TransferGate.connectThenTransfer p

/-! ## Status collector (`src/utils/status-collector.ts`) -/

/-- ASCII whitespace as recognised by JavaScript `trim` and `\s`. -/
def isJsSpace (c : Char) : Bool :=
  c = ' ' || c = '\t' || c = '\n' || c = '\r'

/-- Split a character list at every occurrence of `sep`
(JavaScript `String.prototype.split` with a one-character separator). -/
def splitOnChar (sep : Char) : List Char → List (List Char)
  | [] => [[]]
  | c :: rest =>
    match splitOnChar sep rest with
    | [] => [[]]
    | g :: gs => if c = sep then [] :: g :: gs else (c :: g) :: gs

/-- JavaScript `s.split(sep)` for a one-character separator. -/
def strSplitOn (sep : Char) (s : String) : List String :=
  (splitOnChar sep s.data).map fun cs => ⟨cs⟩

/-- JavaScript `s.trim()`. -/
def strTrim (s : String) : String :=
  ⟨((s.data.dropWhile isJsSpace).reverse.dropWhile isJsSpace).reverse⟩

/-- Substring containment on character lists. -/
def charsContain : List Char → List Char → Bool
  | [], pat => charsStartWith [] pat
  | l@(_ :: rest), pat => charsStartWith l pat || charsContain rest pat

/-- JavaScript `s.includes(pat)`. -/
def strContains (s pat : String) : Bool :=
  charsContain s.data pat.data

/-- Attempt the regular expression `free:(\S+)\s+total:(\S+)` at the head
of the character list. `\S+`/`\s+` are complementary classes, so greedy
maximal runs match exactly what the engine matches. -/
def matchFreeTotalAt (cs : List Char) : Option (String × String) :=
  if charsStartWith cs "free:".data then
    let rest1 := cs.drop 5
    let g1 := rest1.takeWhile fun c => !isJsSpace c
    let rest2 := rest1.dropWhile fun c => !isJsSpace c
    let sp := rest2.takeWhile isJsSpace
    let rest3 := rest2.dropWhile isJsSpace
    if g1.isEmpty || sp.isEmpty then none
    else if charsStartWith rest3 "total:".data then
      let g2 := (rest3.drop 6).takeWhile fun c => !isJsSpace c
      if g2.isEmpty then none else some (⟨g1⟩, ⟨g2⟩)
    else none
  else none

/-- Leftmost match of `free:(\S+)\s+total:(\S+)`, scanning start
positions left to right as the engine does. -/
def searchFreeTotal : List Char → Option (String × String)
  | [] => none
  | l@(_ :: rest) =>
    match matchFreeTotalAt l with
    | some r => some r
    | none => searchFreeTotal rest

/-- JavaScript `value.match(/free:(\S+)\s+total:(\S+)/)`, reduced to its two capture
groups. -/
def matchFreeTotal (s : String) : Option (String × String) :=
  searchFreeTotal s.data

/-- Decimal digit test. -/
def isDigitChar (c : Char) : Bool := '0' ≤ c && c ≤ '9'

/-- Value of a digit run. -/
def digitsToNat (cs : List Char) : Nat :=
  cs.foldl (fun a c => a * 10 + (c.toNat - 48)) 0

/-- JavaScript `parseInt(s, 10)`: skip leading whitespace, optional sign, then a
non-empty digit run; `none` models `NaN`. -/
def jsParseInt10 (s : String) : Option Int :=
  let cs := s.data.dropWhile isJsSpace
  let signed : Int × List Char :=
    match cs with
    | '-' :: r => (-1, r)
    | '+' :: r => (1, r)
    | _ => (1, cs)
  let ds := signed.2.takeWhile isDigitChar
  if ds.isEmpty then none else some (signed.1 * (digitsToNat ds : Int))

/-- JavaScript `parseFloat(s)` restricted to the plain decimal forms the diagnostic
pipelines emit (optional sign, digits, optional fraction; exponent forms
do not occur in those outputs). The value is returned as an exact pair
(numerator, number of fractional digits); `none` models `NaN`. -/
def jsParseFloat (s : String) : Option (Int × Nat) :=
  let cs := s.data.dropWhile isJsSpace
  let signed : Int × List Char :=
    match cs with
    | '-' :: r => (-1, r)
    | '+' :: r => (1, r)
    | _ => (1, cs)
  let ds := signed.2.takeWhile isDigitChar
  let rest := signed.2.dropWhile isDigitChar
  let fs :=
    match rest with
    | '.' :: r => r.takeWhile isDigitChar
    | _ => []
  if ds.isEmpty && fs.isEmpty then none
  else
    some (signed.1 * ((digitsToNat ds * 10 ^ fs.length + digitsToNat fs : Nat) : Int),
      fs.length)

/-- JavaScript `parseFloat(s).toFixed(1)`: exact decimal rounding (half away from
zero) of the parsed value to one fractional digit; `"NaN"` when the parse
fails. -/
def jsToFixed1 (s : String) : String :=
  match jsParseFloat s with
  | none => "NaN"
  | some (num, e) =>
    let den := 10 ^ e
    let r := (num.natAbs * 10 + den / 2) / den
    (if num < 0 then "-" else "") ++ toString (r / 10) ++ "." ++ toString (r % 10)

/-- JavaScript `Math.max(0, parseInt(v, 10) - 1)` — the "subtract one header line,
floor at zero" rule for count-type outputs; `none` models the `NaN` that
an unparseable value propagates through `- 1` and `Math.max`. -/
def jsCountMinusHeader (v : String) : Option Int :=
  (jsParseInt10 v).map fun n => max 0 (n - 1)

/-- Pair `{free, total}` parsed from `df`/`free` output. -/
structure SpacePair where
  free : String
  total : String
deriving DecidableEq

/-- CPU entry of a `ServerStatus`. -/
structure CpuStatus where
  name : Option String := none
  usage : Option String := none
deriving DecidableEq

/-- GPU entry of a `ServerStatus`. -/
structure GpuStatus where
  name : String
  usage : Option String := none
  path : Option String := none
deriving DecidableEq

/-- Mounted-drive entry of a `ServerStatus`. -/
structure DriveStatus where
  device : String
  mountPoint : String
  total : String
  used : String
  free : String
  usagePercent : String
  filesystem : Option String := none
deriving DecidableEq

/-- Process and thread counts (JavaScript numbers; `none` = `NaN`). -/
structure ProcessCounts where
  running : Option Int
  threads : Option Int
deriving DecidableEq

/-- Service counts (JavaScript numbers; `none` = `NaN`). -/
structure ServiceCounts where
  running : Option Int
  installed : Option Int
deriving DecidableEq

/-- Interface `ServerStatus` from `src/models/types.ts`. -/
structure ServerStatus where
  reachable : Bool
  hostname : Option String := none
  ipAddresses : Option (List String) := none
  osName : Option String := none
  osVersion : Option String := none
  kernelVersion : Option String := none
  uptime : Option String := none
  diskSpace : Option SpacePair := none
  drives : Option (List DriveStatus) := none
  memory : Option SpacePair := none
  cpu : Option CpuStatus := none
  gpus : Option (List GpuStatus) := none
  processes : Option ProcessCounts := none
  services : Option ServiceCounts := none
  lastUpdated : Option String := none
deriving DecidableEq

/-- Outcome of each diagnostic command issued by `collectSystemStatus`,
before the `.catch` handlers: `none` is a rejected promise (the command
errored or exited non-zero), `some s` the trimmed output of a successful
run. -/
structure CommandResults where
  hostname : Option String := none
  ipAddresses : Option String := none
  osName : Option String := none
  osVersion : Option String := none
  kernelVersion : Option String := none
  uptime : Option String := none
  diskSpace : Option String := none
  memory : Option String := none
  cpuName : Option String := none
  cpuUsage : Option String := none
  gpus : Option String := none
  gpuPaths : Option String := none
  drives : Option String := none
  processes : Option String := none
  threads : Option String := none
  servicesRunning : Option String := none
  servicesInstalled : Option String := none
deriving DecidableEq

set_option maxHeartbeats 1000000 in
/-- Function `collectSystemStatus` from `src/utils/status-collector.ts`, as a
function of the collection timestamp and of how each diagnostic command
settled. Every command promise carries a `.catch` that substitutes `""`
(or `"0"` for the four count commands), so each `Promise.allSettled`
entry is fulfilled and the `status === "fulfilled"` guards in the source
always hold; the remaining guards test JavaScript truthiness of the
substituted value. The `catch` block that would set `reachable = false`
is reachable only through an exception outside the settled promises, so
per-command failure leaves `reachable` at its initial `true`. -/
def collectSystemStatus (now : String) (r : CommandResults) : ServerStatus :=
  let hostnameV := r.hostname.getD ""
  let ipAddressesV := r.ipAddresses.getD ""
  let osNameV := r.osName.getD ""
  let osVersionV := r.osVersion.getD ""
  let kernelVersionV := r.kernelVersion.getD ""
  let uptimeV := r.uptime.getD ""
  let diskSpaceV := r.diskSpace.getD ""
  let memoryV := r.memory.getD ""
  let cpuNameV := r.cpuName.getD ""
  let cpuUsageV := r.cpuUsage.getD ""
  let gpusV := r.gpus.getD ""
  let gpuPathsV := r.gpuPaths.getD ""
  let drivesV := r.drives.getD ""
  let s : ServerStatus := { reachable := true, lastUpdated := some now }
  let s := if hostnameV ≠ "" then { s with hostname := some hostnameV } else s
  let s :=
    if ipAddressesV ≠ "" then
      { s with ipAddresses := some ((strSplitOn '\n' ipAddressesV).filter fun ip =>
          strTrim ip ≠ "" && !strContains ip "127.0.0.1") }
    else s
  let s := if osNameV ≠ "" then { s with osName := some osNameV } else s
  let s := if osVersionV ≠ "" then { s with osVersion := some osVersionV } else s
  let s := if kernelVersionV ≠ "" then { s with kernelVersion := some kernelVersionV } else s
  let s := if uptimeV ≠ "" then { s with uptime := some uptimeV } else s
  let s :=
    if diskSpaceV ≠ "" then
      match matchFreeTotal diskSpaceV with
      | some pair => { s with diskSpace := some { free := pair.1, total := pair.2 } }
      | none => s
    else s
  let s :=
    if memoryV ≠ "" then
      match matchFreeTotal memoryV with
      | some pair => { s with memory := some { free := pair.1, total := pair.2 } }
      | none => s
    else s
  let s :=
    if cpuNameV ≠ "" && strTrim cpuNameV ≠ "" then
      { s with cpu := some { name := some (strTrim cpuNameV) } }
    else s
  let s :=
    match s.cpu with
    | some c =>
      if cpuUsageV ≠ "" && cpuUsageV ≠ "N/A" then
        { s with cpu := some { c with usage := some (jsToFixed1 cpuUsageV ++ "%") } }
      else s
    | none => s
  let s :=
    if gpusV ≠ "" && strTrim gpusV ≠ "" then
      let gpuPathsList :=
        if gpuPathsV ≠ "" then (strSplitOn '\n' gpuPathsV).filter fun p => strTrim p ≠ ""
        else []
      let gpuLines := (strSplitOn '\n' gpusV).filter fun line => strTrim line ≠ ""
      let gpuList := gpuLines.enum.filterMap fun pair =>
        let parts := strSplitOn '|' pair.2
        if parts.length ≥ 2 then
          let name := strTrim (parts.getD 1 "")
          let usageOpt := (parts.get? 2).map strTrim
          if name ≠ "" && name ≠ "N/A" then
            some { name := name,
                   usage :=
                     match usageOpt with
                     | some u =>
                       if u ≠ "" && u ≠ "N/A" && (jsParseFloat u).isSome then
                         some (jsToFixed1 u ++ "%")
                       else none
                     | none => none,
                   path := gpuPathsList.get? pair.1 : GpuStatus }
          else none
        else none
      if gpuList.length > 0 then { s with gpus := some gpuList } else s
    else s
  let s :=
    if drivesV ≠ "" && strTrim drivesV ≠ "" then
      let driveLines := (strSplitOn '\n' drivesV).filter fun line => strTrim line ≠ ""
      let driveList := driveLines.filterMap fun line =>
        let parts := strSplitOn '|' line
        if parts.length ≥ 6 then
          let device := strTrim (parts.getD 0 "")
          let mountPoint := strTrim (parts.getD 5 "")
          if device ≠ "" && mountPoint ≠ "" then
            some { device := device, mountPoint := mountPoint,
                   total := strTrim (parts.getD 1 ""), used := strTrim (parts.getD 2 ""),
                   free := strTrim (parts.getD 3 ""),
                   usagePercent := strTrim (parts.getD 4 "") : DriveStatus }
          else none
        else none
      if driveList.length > 0 then { s with drives := some driveList } else s
    else s
  let s :=
    { s with processes := some { running := jsCountMinusHeader (r.processes.getD "0"),
                                 threads := jsCountMinusHeader (r.threads.getD "0") } }
  let s :=
    { s with services := some { running := jsCountMinusHeader (r.servicesRunning.getD "0"),
                                installed := jsCountMinusHeader (r.servicesInstalled.getD "0") } }
  s

/-- The total-failure input: the promise of every diagnostic command
rejected. -/
def allCommandsFailed : CommandResults := {}

/-- The input where only the root-filesystem disk-usage command succeeds,
with parseable output, and every other command fails. -/
def onlyDiskSucceeded : CommandResults := { diskSpace := some "free:10G total:50G" }

/-! ## Session registry state (`SSHConnectionManager`) -/

/-- JavaScript `Map.get`: first binding for the key, if any. -/
def lookupAssoc {α : Type} : List (String × α) → String → Option α
  | [], _ => none
  | (k2, v) :: rest, k => if k2 = k then some v else lookupAssoc rest k

/-- JavaScript `Map.set`: replace the binding in place, or append a new one. -/
def setAssoc {α : Type} : List (String × α) → String → α → List (String × α)
  | [], k, v => [(k, v)]
  | (k2, v2) :: rest, k, v =>
    if k2 = k then (k, v) :: rest else (k2, v2) :: setAssoc rest k v

/-- The mutable fields of `SSHConnectionManager`: configured descriptors,
the `clients` map (live `Client` handles, modelled by numeric ids), the
`connected` flag map, the status cache, and the default name. -/
structure RegistryState where
  configs : List (String × SSHConfig)
  clients : List (String × Nat)
  connected : List (String × Bool)
  statusCache : List (String × ServerStatus)
  defaultName : String
deriving DecidableEq

/-- Method `disconnect()`: call `end()` on every stored client (a transport-level
side effect) and clear the `clients` map. Nothing else is touched
synchronously: the `connected` flags are only reset later, when the
`close` event of each transport fires, and the status cache and configs are
never touched. -/
def disconnect (s : RegistryState) : RegistryState :=
  { s with clients := [] }

/-- One row of `getAllServerInfos()`. -/
structure ServerOverview where
  name : String
  host : String
  port : Nat
  username : String
  connected : Bool
  status : Option ServerStatus
deriving DecidableEq

/-- Method `getAllServerInfos()`: one row per configured name, with
`connected: this.connected.get(key) === true` and the cached status. -/
def getAllServerInfos (s : RegistryState) : List ServerOverview :=
  s.configs.map fun pair =>
    { name := pair.1, host := pair.2.host, port := pair.2.port,
      username := pair.2.username,
      connected := lookupAssoc s.connected pair.1 == some true,
      status := lookupAssoc s.statusCache pair.1 }

/-- The early-return guard of `connect`:
`if (this.connected.get(key) && this.clients.get(key)) return;` —
a fresh connect attempt (and authentication sequence) is started exactly
when this is `false`. -/
def connectCheckSkips (s : RegistryState) (key : String) : Bool :=
  (lookupAssoc s.connected key).getD false && (lookupAssoc s.clients key).isSome

/-- Predicate used by the claims: the connected flag of every name has been
cleared (no binding, or a binding set back to `false`). -/
def connectedCleared (s : RegistryState) : Prop :=
  ∀ k v, lookupAssoc s.connected k = some v → v = false

/-! ## Interleaving model of concurrent `connect(name)` calls

`connect` is an `async` method: it runs synchronously from its guard check
up to `client.connect(...)`, then suspends awaiting the `ready` event.
Each caller is modelled as a small program counter over the shared
`RegistryState`; the suspension points are where another caller can be
scheduled. -/

/-- Program counter of one in-flight `connect(key)` call. -/
inductive ConnectPc where
  /-- About to run the guard and, if it does not skip, create a `Client`
  and start the authentication sequence. -/
  | start
  /-- Suspended awaiting the `ready` event of its own client. -/
  | authInFlight (clientId : Nat)
  /-- The `ready` handler ran (`connected.set(key, true)`); the `await`
  has resumed and `clients.set(key, client)` is still pending. -/
  | storeClient (clientId : Nat)
  /-- Returned. -/
  | finished
deriving DecidableEq

/-- Two `connect(key)` callers racing over the shared registry state.
`authStarts` counts how many authentication sequences have been started
(each `new Client()` + `client.connect(...)`), `nextClientId` supplies
fresh client identities. -/
structure ConnectRace where
  reg : RegistryState
  pc1 : ConnectPc
  pc2 : ConnectPc
  nextClientId : Nat
  authStarts : Nat
deriving DecidableEq

/-- One scheduled step of one caller: the guard-and-dial prefix, the
`ready` handler, or the post-`await` store of the client handle. -/
def connectStep (key : String) (w : ConnectRace) (pc : ConnectPc) :
    ConnectRace × ConnectPc :=
  match pc with
  | ConnectPc.start =>
    if connectCheckSkips w.reg key then (w, ConnectPc.finished)
    else
      ({ w with nextClientId := w.nextClientId + 1, authStarts := w.authStarts + 1 },
        ConnectPc.authInFlight w.nextClientId)
  | ConnectPc.authInFlight id =>
    ({ w with reg := { w.reg with connected := setAssoc w.reg.connected key true } },
      ConnectPc.storeClient id)
  | ConnectPc.storeClient id =>
    ({ w with reg := { w.reg with clients := setAssoc w.reg.clients key id } },
      ConnectPc.finished)
  | ConnectPc.finished => (w, ConnectPc.finished)

/-- Run a schedule: `true` steps caller 1, `false` steps caller 2. -/
def runConnectRace (key : String) : ConnectRace → List Bool → ConnectRace
  | w, [] => w
  | w, true :: rest =>
    let st := connectStep key w w.pc1
    runConnectRace key { st.1 with pc1 := st.2, pc2 := w.pc2 } rest
  | w, false :: rest =>
    let st := connectStep key w w.pc2
    runConnectRace key { st.1 with pc1 := w.pc1, pc2 := st.2 } rest

/-- A descriptor for the race scenario. -/
def raceConfig : SSHConfig :=
  { host := "203.0.113.5", port := 22, username := "ops", password := some "pw" }

/-- Initial state: name `"a"` configured but not connected, both callers
about to run `connect("a")`. -/
def raceStart : ConnectRace :=
  { reg := { configs := [("a", raceConfig)], clients := [], connected := [],
             statusCache := [], defaultName := "a" },
    pc1 := ConnectPc.start, pc2 := ConnectPc.start,
    nextClientId := 1, authStarts := 0 }

/-- The interleaving in which both callers run their guard before either
authentication completes. -/
def raceSchedule : List Bool := [true, false, true, true, false, false]

/-! ## Theorems -/

/-- Helper: when the event trace is settled by a `close` event, the
handlers resolve with the stdout accumulator extended by the stdout
chunks seen before that close. -/
theorem execCommandRun_close_resolves (events : List StreamEvent) (c : Int)
    (h : closesWith events = some c) (d e : String) :
    execCommandRun events d e = ExecOutcome.resolved (d ++ stdoutUpToSettle events) := by
  induction events generalizing d e with
  | nil => simp [closesWith] at h
  | cons ev rest ih =>
    cases ev with
    | out chunk =>
      simp only [closesWith] at h
      simp only [execCommandRun, stdoutUpToSettle, ih h, String.append_assoc]
    | errOut chunk =>
      simp only [closesWith] at h
      simp only [execCommandRun, stdoutUpToSettle, ih h]
    | close code =>
      simp [execCommandRun, stdoutUpToSettle]
    | fail msg =>
      simp [closesWith] at h

/-- Claim C2: `validateCommand` is a pure function of the command and the
pattern lists of the descriptor, and allows a command exactly when the
whitelist is absent/empty or matched, and the blacklist is absent/empty
or unmatched. `test` stands for the regex membership test
`new RegExp(pattern).test(command)`. -/
theorem validateCommand_policy_semantics (test : String → String → Bool)
    (c1 c2 : SSHConfig) (wl bl : Option (List String)) (command : String) :
    (((validateCommand test
          { c1 with commandWhitelist := wl, commandBlacklist := bl } command).isAllowed
        = true) ↔
      ((listConfigured wl = false ∨ ∃ p ∈ wl.getD [], test p command = true) ∧
        (listConfigured bl = false ∨ ∀ p ∈ bl.getD [], test p command = false)))
    ∧ validateCommand test
        { c1 with commandWhitelist := wl, commandBlacklist := bl } command
      = validateCommand test
        { c2 with commandWhitelist := wl, commandBlacklist := bl } command := by
  constructor
  · rcases hwl : listConfigured wl <;>
      rcases hw : (wl.getD []).any (fun p => test p command) <;>
      rcases hbl : listConfigured bl <;>
      rcases hb : (bl.getD []).any (fun p => test p command) <;>
      simp [validateCommand, hwl, hw, hbl, hb,
        ← List.any_eq_true, ← List.any_eq_false] <;>
      (intro p hp; simpa using (List.any_eq_false.mp hb) p hp)
  · rfl

/-- Claim C9: `options.timeout || 30000` — a timeout of `0` is treated
exactly like an absent timeout, both yielding the 30 000 ms default, and
no option can make the effective timeout zero. -/
theorem executeCommandTimeout_zero_is_default :
    executeCommandTimeout (some 0) = executeCommandTimeout none
    ∧ executeCommandTimeout (some 0) = 30000
    ∧ executeCommandTimeout none = 30000
    ∧ ∀ o : Option Nat, 0 < executeCommandTimeout o := by
  refine ⟨rfl, rfl, rfl, ?_⟩
  intro o
  cases o with
  | none => simp [executeCommandTimeout]
  | some t =>
    simp only [executeCommandTimeout]
    split <;> omega

/-- Claim C3, as stated, is false: on the trace stdout `"O"`, stderr
`"E"`, close — the promise resolves with `"O"` alone, not with the
concatenation `"OE"` of standard output and standard error. -/
theorem executeCommand_drops_stderr_counterexample :
    executeCommandResult
        [StreamEvent.out "O", StreamEvent.errOut "E", StreamEvent.close 0]
      = ExecOutcome.resolved "O"
    ∧ stdoutUpToSettle
          [StreamEvent.out "O", StreamEvent.errOut "E", StreamEvent.close 0]
        ++ stderrUpToSettle
          [StreamEvent.out "O", StreamEvent.errOut "E", StreamEvent.close 0]
      = "OE"
    ∧ ExecOutcome.resolved "O" ≠ ExecOutcome.resolved "OE" := by
  refine ⟨by rfl, by rfl, by decide⟩

/-- Claim C3 (amended): for every allowed command whose stream runs to a
`close` event, `executeCommand` resolves with a single text result that
is the accumulated standard output up to the close; the accumulated
standard error is collected but not included. -/
theorem executeCommand_resolves_stdout_on_close (events : List StreamEvent)
    (c : Int) (h : closesWith events = some c) :
    executeCommandResult events = ExecOutcome.resolved (stdoutUpToSettle events) := by
  simpa using execCommandRun_close_resolves events c h "" ""

/-- Witness for `executeCommand_resolves_stdout_on_close` on a concrete
trace. -/
theorem executeCommand_resolves_stdout_on_close_witness :
    closesWith [StreamEvent.out "a", StreamEvent.errOut "b", StreamEvent.close 0]
        = some 0
    ∧ executeCommandResult
          [StreamEvent.out "a", StreamEvent.errOut "b", StreamEvent.close 0]
        = ExecOutcome.resolved (stdoutUpToSettle
          [StreamEvent.out "a", StreamEvent.errOut "b", StreamEvent.close 0]) :=
  ⟨by decide,
    executeCommand_resolves_stdout_on_close
      [StreamEvent.out "a", StreamEvent.errOut "b", StreamEvent.close 0] 0 (by decide)⟩

/-- Claim C8: a stream that closes with a non-zero exit code (without a
stream error) still resolves successfully with the accumulated output —
the exit code passed to the `close` handler is ignored, so a non-zero
remote exit never rejects the call by itself. -/
theorem executeCommand_nonzero_exit_resolves (events : List StreamEvent)
    (c : Int) (h1 : closesWith events = some c) (_h2 : c ≠ 0) :
    executeCommandResult events = ExecOutcome.resolved (stdoutUpToSettle events) := by
  simpa using execCommandRun_close_resolves events c h1 "" ""

/-- Witness for `executeCommand_nonzero_exit_resolves`: exit code 1. -/
theorem executeCommand_nonzero_exit_resolves_witness :
    closesWith [StreamEvent.out "x", StreamEvent.close 1] = some 1
    ∧ (1 : Int) ≠ 0
    ∧ executeCommandResult [StreamEvent.out "x", StreamEvent.close 1]
        = ExecOutcome.resolved (stdoutUpToSettle [StreamEvent.out "x", StreamEvent.close 1]) :=
  ⟨by decide, by decide,
    executeCommand_nonzero_exit_resolves [StreamEvent.out "x", StreamEvent.close 1] 1
      (by decide) (by decide)⟩

/-- Claim C1, checked on the code: with working directory
`/home/u/proj`, the local path `/home/u/project2/f` resolves outside the
working-directory tree (it lives in the sibling directory
`/home/u/project2`, whose name merely extends the name of the working
directory), yet the `startsWith` check of `validateLocalPath` accepts it and
`upload`/`download` proceed to `ensureConnected` and the transfer instead
of failing with the path-traversal error. The intent of the spec — fail closed
on any resolution outside the tree — is contradicted by the prefix
comparison in the code. -/
theorem validateLocalPath_sibling_bypass :
    validateLocalPath "/home/u/proj" "/home/u/project2/f"
        = Except.ok "/home/u/project2/f"
    ∧ transferLocalGate "/home/u/proj" "/home/u/project2/f"
        = TransferGate.connectThenTransfer "/home/u/project2/f"
    ∧ insideWorkingTree "/home/u/proj" "/home/u/project2/f" = false
    ∧ transferLocalGate "/home/u/proj" "../../etc/passwd"
        = TransferGate.rejectedBeforeConnect
          "Path traversal detected. Local path must be within the working directory." := by
  refine ⟨by rfl, by rfl, by decide, by rfl⟩

/-- Claim C4, as stated, is false: when every diagnostic command fails,
each command promise is converted by its `.catch` into a fulfilled `""`
(or `"0"` for the count commands), so `reachable` keeps its initial value
`true` — not `false` — and the `processes` and `services` structures are
populated with zero counts rather than left absent. -/
theorem collectSystemStatus_total_failure_counterexample :
    (collectSystemStatus "2024-01-01T00:00:00.000Z" allCommandsFailed).reachable = true
    ∧ (collectSystemStatus "2024-01-01T00:00:00.000Z" allCommandsFailed).processes
        = some { running := some 0, threads := some 0 }
    ∧ (collectSystemStatus "2024-01-01T00:00:00.000Z" allCommandsFailed).services
        = some { running := some 0, installed := some 0 } := by
  refine ⟨by rfl, by rfl, by rfl⟩

/-- Claim C4 (amended): `collectSystemStatus` never throws, and when
every diagnostic command fails it returns a snapshot whose `reachable`
field is still `true`, whose collection timestamp is set, in which the
`processes` and `services` counts are populated with zeros, and in which
every other optional field is absent. -/
theorem collectSystemStatus_total_failure (now : String) :
    collectSystemStatus now allCommandsFailed =
      { reachable := true, lastUpdated := some now,
        processes := some { running := some 0, threads := some 0 },
        services := some { running := some 0, installed := some 0 } } := by
  rfl

/-- Claim C5, as stated, is false: when only the disk-usage command
succeeds, `diskSpace` is populated, but the `processes` and `services`
count structures are populated too (with zero counts), because their
`.catch(() => "0")` substitutes make their `allSettled` entries always
fulfilled. -/
theorem collectSystemStatus_only_disk_counterexample :
    (collectSystemStatus "t" onlyDiskSucceeded).diskSpace
        = some { free := "10G", total := "50G" }
    ∧ (collectSystemStatus "t" onlyDiskSucceeded).processes
        = some { running := some 0, threads := some 0 }
    ∧ (collectSystemStatus "t" onlyDiskSucceeded).services ≠ none := by
  refine ⟨by rfl, by rfl, by decide⟩

/-- Claim C5 (amended): when exactly the disk-usage command succeeds with
parseable free/total output, the snapshot is returned without error with
`diskSpace` populated, the `processes` and `services` counts populated
with zeros, and every other optional field absent. -/
theorem collectSystemStatus_only_disk (now : String) :
    collectSystemStatus now onlyDiskSucceeded =
      { reachable := true, lastUpdated := some now,
        diskSpace := some { free := "10G", total := "50G" },
        processes := some { running := some 0, threads := some 0 },
        services := some { running := some 0, installed := some 0 } } := by
  rfl

/-- Claim C6, as stated, is false: in the interleaving where both
`connect("a")` callers run the guard check before either authentication
completes, both pass it (the name is not yet connected), and two
authentication sequences are started; both callers run to completion. -/
theorem connect_race_counterexample :
    (runConnectRace "a" raceStart raceSchedule).authStarts = 2
    ∧ (runConnectRace "a" raceStart raceSchedule).pc1 = ConnectPc.finished
    ∧ (runConnectRace "a" raceStart raceSchedule).pc2 = ConnectPc.finished := by
  refine ⟨by rfl, by rfl, by rfl⟩

/-- Claim C6 (amended): `connect` does not de-duplicate concurrent calls
for the same unconnected name — an interleaving exists in which both
callers start their own authentication sequence (two sequences, two
clients created); the `clients` map then keeps only the handle stored by
the later caller. Only when one call completes before the other starts
does the connected-guard collapse them to a single authentication
sequence. -/
theorem connect_race_behavior :
    (runConnectRace "a" raceStart raceSchedule).authStarts = 2
    ∧ lookupAssoc (runConnectRace "a" raceStart raceSchedule).reg.clients "a" = some 2
    ∧ lookupAssoc (runConnectRace "a" raceStart raceSchedule).reg.connected "a"
        = some true
    ∧ (runConnectRace "a" raceStart
        [true, true, true, false, false, false]).authStarts = 1 := by
  refine ⟨by rfl, by rfl, by rfl, by rfl⟩

/-- A registry state with one configured, connected name and a cached
snapshot, used to evaluate `disconnect`. -/
def demoConfig : SSHConfig :=
  { host := "198.51.100.7", port := 22, username := "admin", password := some "pw" }

/-- A cached status snapshot for the demo state. -/
def demoStatus : ServerStatus :=
  { reachable := true, hostname := some "web1",
    lastUpdated := some "2024-01-01T00:00:00.000Z" }

/-- Demo registry state: name `"a"` connected with a live client and a
cached snapshot. -/
def demoRegistry : RegistryState :=
  { configs := [("a", demoConfig)], clients := [("a", 1)],
    connected := [("a", true)], statusCache := [("a", demoStatus)],
    defaultName := "a" }

/-- Claim C7, as stated, is false: `disconnect()` clears only the
`clients` map; the `connected` flag map is untouched when `disconnect`
returns (the flags are reset only later, by the asynchronous
`close` event of each transport), so a previously connected name still holds
`connected = true`. -/
theorem disconnect_connected_flag_counterexample :
    lookupAssoc (disconnect demoRegistry).connected "a" = some true
    ∧ ¬ connectedCleared (disconnect demoRegistry) := by
  constructor
  · rfl
  · intro hall
    have h := hall "a" true (by rfl)
    exact absurd h (by decide)

/-- Claim C7 (amended): after `disconnect()` returns, no name holds a
live session handle and the configured descriptors are unchanged, so
every configured name can be connected again (the `connect` guard never
skips once the `clients` map is empty, even though the stale `connected`
flags are only cleared later by the close events of the transports). -/
theorem disconnect_clears_clients_reconnectable (s : RegistryState) (k : String) :
    (disconnect s).clients = []
    ∧ (disconnect s).configs = s.configs
    ∧ (disconnect s).connected = s.connected
    ∧ connectCheckSkips (disconnect s) k = false := by
  refine ⟨rfl, rfl, rfl, ?_⟩
  simp [connectCheckSkips, disconnect, lookupAssoc]

/-- Claim C10: `disconnect()` never removes cached status snapshots — the
status cache and the whole `getAllServerInfos` output (which reads only
the configs, the connected flags and the status cache) are unchanged by
`disconnect`, so the cached snapshot of every name is still returned
afterward. -/
theorem disconnect_preserves_status_cache (s : RegistryState) :
    (disconnect s).statusCache = s.statusCache
    ∧ getAllServerInfos (disconnect s) = getAllServerInfos s
    ∧ ∀ name, lookupAssoc (disconnect s).statusCache name
        = lookupAssoc s.statusCache name := by
  exact ⟨rfl, rfl, fun _ => rfl⟩




end SSHMCP
